import Mathlib

/-!
Verification of the `cfw-gha-deploy` repository: a Hono HTTP worker with a
single route, plus its wrangler deployment descriptor.

The embedding follows `src/index.ts`, which (after importing Hono) reads:

  const app = new Hono()
  app.get('/', (c) => { return c.text('Hello Hono! x gha deploy') })
  export default app

and the two descriptor serializations documented in the README
(`wrangler.json` and `wrangler.toml`).
-/

namespace CfwGhaDeploy

/-- An HTTP request as seen by the worker: method, path, plus the parts the
handler never inspects (headers, query string, body). -/
structure Request where
  method : String
  path : String
  headers : List (String × String)
  query : String
  body : String
deriving Repr, DecidableEq

/-- An HTTP response: status code, content-type header value, body. -/
structure Response where
  status : Nat
  contentType : String
  body : String
deriving Repr, DecidableEq

/-- Hono's `c.text(s)` helper: status 200 with the framework's default text
content type `text/plain; charset=UTF-8`. -/
def contextText (s : String) : Response :=
  { status := 200, contentType := "text/plain; charset=UTF-8", body := s }

/-- A registered route: HTTP method, path pattern, and handler function. -/
structure Route where
  method : String
  path : String
  handler : Request → Response

/-- A Hono application is, for this worker, its list of registered routes. -/
abbrev Hono := List Route

/-- `new Hono()`: an application with no routes registered. -/
def Hono.mk : Hono := []

/-- `app.get(p, h)`: registers a route binding method GET and path `p`
to handler `h`. -/
def Hono.get (a : Hono) (p : String) (h : Request → Response) : Hono :=
  a ++ [{ method := "GET", path := p, handler := h }]

/-- The route at position `i`, and the number of routes. -/
def Hono.routes (a : Hono) : List Route := a

/-- A route matches a request when the method and path are both equal
(the one registered path here is the literal `/`, with no parameters). -/
def routeMatches (r : Route) (req : Request) : Bool :=
  r.method == req.method && r.path == req.path

/-- Dispatch: the first matching route handles the request; with no match
the request falls through to the framework default (`none`). -/
def dispatch (a : Hono) (req : Request) : Option Response :=
  (a.find? (fun r => routeMatches r req)).map (fun r => r.handler req)

/-- The handler registered on `GET /` in `src/index.ts`:
`(c) => { return c.text('Hello Hono! x gha deploy') }`. -/
def rootHandler (_req : Request) : Response :=
  contextText "Hello Hono! x gha deploy"

/-- `const app = new Hono(); app.get('/', rootHandler)`. -/
def app : Hono := Hono.get Hono.mk "/" rootHandler

/-- `export default app` in `src/index.ts`. -/
def defaultExport : Hono := app

/-! ### Stateful embedding for the frame claim

To talk about side effects at all, we re-embed the handler with an explicit
world state threaded through it. The source handler body performs no store,
no log, no external call, so its stateful embedding returns the incoming
world unchanged; dispatch threads the world through the chosen handler. -/

/-- Observable world state around an invocation: an external-call log and a
mutable key-value store. -/
structure World where
  log : List String
  store : List (String × String)
deriving Repr, DecidableEq

/-- A route whose handler threads world state explicitly. -/
structure RouteSt where
  method : String
  path : String
  handler : Request → World → Response × World

/-- Stateful embedding of the `GET /` handler: its body
`return c.text('Hello Hono! x gha deploy')` performs no effectful
operation, so the world passes through untouched. -/
def rootHandlerSt (_req : Request) (w : World) : Response × World :=
  (contextText "Hello Hono! x gha deploy", w)

/-- The application in the stateful embedding: the same single registration. -/
def appSt : List RouteSt :=
  [{ method := "GET", path := "/", handler := rootHandlerSt }]

/-- A stateful route matches exactly as in `routeMatches`. -/
def routeMatchesSt (r : RouteSt) (req : Request) : Bool :=
  r.method == req.method && r.path == req.path

/-- Stateful dispatch: the first matching route handles the request and may
update the world; a non-match leaves the world as is. -/
def dispatchSt (a : List RouteSt) (req : Request) (w : World) :
    Option Response × World :=
  match a.find? (fun r => routeMatchesSt r req) with
  | some r =>
      match r.handler req w with
      | (resp, w2) => (some resp, w2)
  | none => (none, w)

/-! ### Deployment descriptor

The README documents the two serializations of the same descriptor:

  wrangler.json : { "name": "my-worker", "main": "src/index.ts",
                    "compatibility_date": "2025-12-10" }
  wrangler.toml : name = "my-worker"
                  main = "src/index.ts"
                  compatibility_date = "2025-12-10"
-/

/-- The deployment descriptor record: service name, entry-point path
relative to the descriptor's directory, compatibility date. -/
structure Descriptor where
  name : String
  main : String
  compatibility_date : String
deriving Repr, DecidableEq

/-- The descriptor as read from the documented `wrangler.json`. -/
def wranglerJson : Descriptor :=
  { name := "my-worker", main := "src/index.ts",
    compatibility_date := "2025-12-10" }

/-- The descriptor as read from the documented `wrangler.toml`. -/
def wranglerToml : Descriptor :=
  { name := "my-worker", main := "src/index.ts",
    compatibility_date := "2025-12-10" }

/-- The repository's module table: which repository-relative paths hold a
module, and what that module default-exports. The only module is
`src/index.ts`, whose default export is `app`. -/
def moduleDefaultExport (p : String) : Option Hono :=
  if p = "src/index.ts" then some defaultExport else none

end CfwGhaDeploy

namespace CfwGhaDeploy

/-- Unfolding lemma: dispatching any request against `app` hits the single
registered route exactly when the method is GET and the path is `/`. -/
theorem dispatch_app_eq (req : Request) :
    dispatch app req =
      if req.method = "GET" ∧ req.path = "/" then some (rootHandler req)
      else none := by
  by_cases h : req.method = "GET" ∧ req.path = "/"
  · obtain ⟨hm, hp⟩ := h
    simp [dispatch, app, Hono.get, Hono.mk, routeMatches, hm, hp]
  · have h2 : ¬("GET" = req.method ∧ "/" = req.path) :=
      fun hc => h ⟨hc.1.symm, hc.2.symm⟩
    simp [dispatch, app, Hono.get, Hono.mk, routeMatches, h, h2]

/-- Unfolding lemma for the stateful embedding: same route condition, and
the world always comes back unchanged. -/
theorem dispatchSt_eq (req : Request) (w : World) :
    dispatchSt appSt req w =
      (if req.method = "GET" ∧ req.path = "/"
        then some (contextText "Hello Hono! x gha deploy") else none, w) := by
  by_cases h : req.method = "GET" ∧ req.path = "/"
  · obtain ⟨hm, hp⟩ := h
    simp [dispatchSt, appSt, routeMatchesSt, hm, hp, rootHandlerSt]
  · have h2 : ¬("GET" = req.method ∧ "/" = req.path) :=
      fun hc => h ⟨hc.1.symm, hc.2.symm⟩
    simp [dispatchSt, appSt, routeMatchesSt, h, h2]

/-- C1: for a `GET /` request, dispatch returns a response with status 200,
the framework's default text content type, and body exactly
`"Hello Hono! x gha deploy"`. -/
theorem c1_get_root_response (req : Request)
    (hm : req.method = "GET") (hp : req.path = "/") :
    dispatch app req =
      some { status := 200, contentType := "text/plain; charset=UTF-8",
             body := "Hello Hono! x gha deploy" } := by
  rw [dispatch_app_eq, if_pos ⟨hm, hp⟩]
  rfl

/-- Witness for C1 at the concrete request `GET /`. -/
theorem c1_get_root_response_witness :
    dispatch app
      { method := "GET", path := "/", headers := [], query := "", body := "" } =
      some { status := 200, contentType := "text/plain; charset=UTF-8",
             body := "Hello Hono! x gha deploy" } :=
  c1_get_root_response
    { method := "GET", path := "/", headers := [], query := "", body := "" }
    rfl rfl

/-- C2: for every (method, path) other than (GET, /), no registered route
matches: dispatch falls through to the framework default (`none`); in
particular the response is never the success response. -/
theorem c2_other_routes_fall_through (req : Request)
    (h : ¬ (req.method = "GET" ∧ req.path = "/")) :
    dispatch app req = none := by
  rw [dispatch_app_eq, if_neg h]

/-- Witness for C2 at the concrete request `POST /`: it does not produce
the success response. -/
theorem c2_other_routes_fall_through_witness :
    dispatch app
      { method := "POST", path := "/", headers := [], query := "", body := "" } =
      none :=
  c2_other_routes_fall_through
    { method := "POST", path := "/", headers := [], query := "", body := "" }
    (by decide)

/-- C3: the handler is deterministic and side-effect-free: dispatching the
same request N times yields N identical responses. -/
theorem c3_idempotent_n_runs (req : Request) (n : Nat) :
    (List.replicate n req).map (dispatch app) =
      List.replicate n (dispatch app req) := by
  induction n with
  | zero => rfl
  | succ k ih => simp [List.replicate, ih]

/-- C4: dispatch is total on the registered route: every `GET /` request
gets some response (no error branch, no fall-through). -/
theorem c4_total_on_registered_route (req : Request)
    (hm : req.method = "GET") (hp : req.path = "/") :
    (dispatch app req).isSome = true := by
  rw [c1_get_root_response req hm hp]
  rfl

/-- Witness for C4 at the concrete request `GET /`. -/
theorem c4_total_on_registered_route_witness :
    (dispatch app
      { method := "GET", path := "/", headers := [], query := "",
        body := "" }).isSome = true :=
  c4_total_on_registered_route
    { method := "GET", path := "/", headers := [], query := "", body := "" }
    rfl rfl

/-- C5: the application registers exactly one route, and that route binds
method GET and path `/`. -/
theorem c5_exactly_one_route :
    app.routes.length = 1 ∧
      app.routes.map (fun r => (r.method, r.path)) = [("GET", "/")] := by
  constructor <;> rfl

/-- C6: invoking the handler leaves all observable state unchanged: in the
stateful embedding, dispatch returns the incoming world untouched for every
request, and the response agrees with the pure embedding. -/
theorem c6_no_side_effects (req : Request) (w : World) :
    (dispatchSt appSt req w).2 = w ∧
      (dispatchSt appSt req w).1 = dispatch app req := by
  rw [dispatchSt_eq, dispatch_app_eq]
  exact ⟨rfl, rfl⟩

/-- C7: the entry-point module's default export is the very application on
which the `GET /` route was registered, so it satisfies the Request Handler
capability. -/
theorem c7_default_export_is_app :
    defaultExport = app ∧
      defaultExport.routes.map (fun r => (r.method, r.path)) = [("GET", "/")] :=
  ⟨rfl, rfl⟩

/-- C8: the descriptor's `main` field names exactly the repository-relative
path of the module whose default export is the Request Handler application. -/
theorem c8_main_points_to_handler_module :
    wranglerJson.main = "src/index.ts" ∧
      moduleDefaultExport wranglerJson.main = some app := by
  constructor
  · rfl
  · simp [moduleDefaultExport, wranglerJson, defaultExport]

/-- C9: the JSON and TOML serializations of the deployment descriptor carry
identical field semantics: name, main and compatibility_date all agree, so
the two records are equal and interchangeable. -/
theorem c9_json_toml_interchangeable :
    wranglerJson.name = wranglerToml.name ∧
      wranglerJson.main = wranglerToml.main ∧
      wranglerJson.compatibility_date = wranglerToml.compatibility_date ∧
      wranglerJson = wranglerToml :=
  ⟨rfl, rfl, rfl, rfl⟩

/-- C10: the response to a matching `GET /` request is independent of every
part of the request other than method and path: two requests agreeing on
those fields get identical responses, whatever their headers, query string
or body. -/
theorem c10_response_ignores_rest_of_request (r1 r2 : Request)
    (hm : r1.method = r2.method) (hp : r1.path = r2.path) :
    dispatch app r1 = dispatch app r2 := by
  rw [dispatch_app_eq, dispatch_app_eq, hm, hp]
  rfl

/-- Witness for C10: a bare `GET /` and a `GET /` with headers, a query
string and a body get the same response. -/
theorem c10_response_ignores_rest_of_request_witness :
    dispatch app
      { method := "GET", path := "/", headers := [], query := "", body := "" } =
    dispatch app
      { method := "GET", path := "/",
        headers := [("x-test", "1")], query := "a=b", body := "payload" } :=
  c10_response_ignores_rest_of_request
    { method := "GET", path := "/", headers := [], query := "", body := "" }
    { method := "GET", path := "/",
      headers := [("x-test", "1")], query := "a=b", body := "payload" }
    rfl rfl

end CfwGhaDeploy
